import Mathlib

/-!
Verification of the configuration and style persistence layer of the
twitter-reply-assistant browser extension.

The UI components (`popup/index.tsx`, `CustomStyleManager`, `StyleSelector`)
are present in the repository; the service layer they import
(`services/storage-service`, `services/ai-service`, `types`) is not, so the
service operations below are modelled from the specification, as marked on
each definition.  UI-level logic (`handleProviderChange`, the
`StyleSelector` grouping) is embedded directly from the TypeScript source.
-/

/-- The provider enum, from the popup's provider buttons
(`['siliconflow', 'deepseek', 'glm', 'custom'] as AIProvider[]`). -/
inductive AIProvider where
  | siliconflow
  | deepseek
  | glm
  | custom
deriving DecidableEq, Repr

/-- The `AIConfig` record: provider, endpoint URL, API token and model name. -/
structure AIConfig where
  provider : AIProvider
  apiUrl : String
  apiToken : String
  model : String
deriving DecidableEq, Repr

/-- A reply style as shown in the selector: id, name, icon, description and
the system prompt used for generation. -/
structure ReplyStyle where
  id : String
  name : String
  icon : String
  description : String
  systemPrompt : String
deriving DecidableEq, Repr

/-- A persisted user-defined style: the same fields plus a creation
timestamp. -/
structure CustomReplyStyle where
  id : String
  name : String
  icon : String
  description : String
  systemPrompt : String
  createdAt : Nat
deriving DecidableEq, Repr

/-- The mutable fields of a custom style, as edited in the manager form
(`formData` in `CustomStyleManager`): everything except `id` and
`createdAt`. -/
structure StyleFields where
  name : String
  icon : String
  description : String
  systemPrompt : String
deriving DecidableEq, Repr

/-- Modelled from the spec: the error taxonomy of section 7
(`ValidationError`, `CapacityError`, `NotFoundError`, `StorageError`,
`NetworkError`, `ProviderError` with provider detail,
`ConfigMissingError`). -/
inductive AppError where
  | validationError
  | capacityError
  | notFoundError
  | storageError
  | networkError
  | providerError (status : Nat)
  | configMissingError
deriving DecidableEq, Repr

/-- Modelled from the spec: the durable state owned by the Persistence
Store — zero or one `AIConfig` plus the ordered collection of custom
styles. -/
structure StoreState where
  aiConfig : Option AIConfig
  customStyles : List CustomReplyStyle
deriving DecidableEq, Repr

/-- Modelled from the spec: `MAX_CUSTOM_STYLES` is declared in `types`,
which is not among the reviewed files; the numeric value is taken as 10 and
no theorem depends on the particular value. -/
def MAX_CUSTOM_STYLES : Nat := 10

/-- Concatenation of a list of strings (used to manufacture fresh ids). -/
def concatAll : List String → String
  | [] => ""
  | s :: rest => s ++ concatAll rest

/-- Modelled from the spec: `saveCustomStyle` "generates a fresh unique
`id`" and ids "are unique across both sets by construction"; the generation
mechanism is not observable, so freshness is realised by producing a string
strictly longer than every taken id. -/
def freshId (taken : List String) : String :=
  concatAll taken ++ "c"

/-- Overwrite the mutable fields of a stored style, keeping `id` and
`createdAt`. -/
def applyFields (f : StyleFields) (s : CustomReplyStyle) : CustomReplyStyle :=
  { s with
      name := f.name
      icon := f.icon
      description := f.description
      systemPrompt := f.systemPrompt }

/-- Build a stored style from a fresh id, a timestamp and the form
fields. -/
def mkCustomStyle (id : String) (createdAt : Nat) (f : StyleFields) : CustomReplyStyle :=
  ⟨id, f.name, f.icon, f.description, f.systemPrompt, createdAt⟩

/-- View a stored custom style as a catalog entry. -/
def toReplyStyle (s : CustomReplyStyle) : ReplyStyle :=
  ⟨s.id, s.name, s.icon, s.description, s.systemPrompt⟩

/-- Modelled from the spec: `getAIConfig() -> AIConfig | absent`. -/
def getAIConfig (st : StoreState) : Option AIConfig :=
  st.aiConfig

/-- Modelled from the spec: `setAIConfig` overwrites any existing config,
no partial merge. -/
def setAIConfig (st : StoreState) (cfg : AIConfig) : StoreState :=
  { st with aiConfig := some cfg }

/-- Modelled from the spec: `clearAIConfig` removes the config and is
idempotent. -/
def clearAIConfig (st : StoreState) : StoreState :=
  { st with aiConfig := none }

/-- Modelled from the spec: `getCustomStyles` returns the collection in
creation order. -/
def getCustomStyles (st : StoreState) : List CustomReplyStyle :=
  st.customStyles

/-- Modelled from the spec: `saveCustomStyle(fields)` fails with a capacity
error if the current count is at least `MAX_CUSTOM_STYLES`; otherwise it
generates a fresh unique id, stamps `createdAt` with the current time,
appends, persists and returns the created entity. -/
def saveCustomStyle (presets : List ReplyStyle) (st : StoreState)
    (f : StyleFields) (now : Nat) :
    Except AppError (StoreState × CustomReplyStyle) :=
  if st.customStyles.length ≥ MAX_CUSTOM_STYLES then
    .error .capacityError
  else
    let id := freshId (presets.map (fun p => p.id) ++
      st.customStyles.map (fun s => s.id))
    let entry := mkCustomStyle id now f
    .ok ({ st with customStyles := st.customStyles ++ [entry] }, entry)

/-- The stored state after a `saveCustomStyle` call: the new state on
success, the unchanged state on failure. -/
def saveResultState (presets : List ReplyStyle) (st : StoreState)
    (f : StyleFields) (now : Nat) : StoreState :=
  match saveCustomStyle presets st f now with
  | .ok (st', _) => st'
  | .error _ => st

/-- Modelled from the spec: `updateCustomStyle(id, fields)` fails with a
not-found error if `id` is absent; otherwise it replaces all mutable fields
in place, preserving `id` and `createdAt`. -/
def updateCustomStyle (st : StoreState) (i : String) (f : StyleFields) :
    Except AppError StoreState :=
  if st.customStyles.any (fun s => s.id == i) then
    .ok { st with
            customStyles :=
              st.customStyles.map
                (fun s => if s.id == i then applyFields f s else s) }
  else
    .error .notFoundError

/-- Modelled from the spec: `deleteCustomStyle(id)` fails with not-found if
absent, otherwise removes the entry and persists. -/
def deleteCustomStyle (st : StoreState) (i : String) :
    Except AppError StoreState :=
  if st.customStyles.any (fun s => s.id == i) then
    .ok { st with customStyles := st.customStyles.filter (fun s => s.id != i) }
  else
    .error .notFoundError

/-- Modelled from the spec: `getAllStyles()` is the concatenation of the
built-in preset list and the persisted custom list. -/
def getAllStyles (presets : List ReplyStyle) (st : StoreState) : List ReplyStyle :=
  presets ++ st.customStyles.map toReplyStyle

/-- Prefix test on character lists (kernel-reducible, used by the URL shape
check). -/
def hasPrefixChars : List Char → List Char → Bool
  | [], _ => true
  | _ :: _, [] => false
  | a :: ps, b :: ss => a == b && hasPrefixChars ps ss

/-- Modelled from the spec: the config's `apiUrl` "must match an HTTP(S)
URL shape" (scheme plus host), so the check requires an `http://` or
`https://` scheme followed by at least one host character. -/
def urlShaped (s : String) : Bool :=
  (hasPrefixChars "http://".data s.data && s.length > 7) ||
    (hasPrefixChars "https://".data s.data && s.length > 8)

/-- Message of the URL check of `validateConfig`. -/
def urlErrorMsg : String := "API URL is required and must be a valid HTTP or HTTPS URL"

/-- Message of the token check of `validateConfig`. -/
def tokenErrorMsg : String := "API Token is required"

/-- Message of the model check of `validateConfig`. -/
def modelErrorMsg : String := "Model name is required"

/-- Result shape of the validator: a flag plus an ordered error list. -/
structure ValidationResult where
  valid : Bool
  errors : List String
deriving DecidableEq, Repr

/-- Modelled from the spec: `validateConfig` runs, in order, the provider
check (always satisfied for the enum type), the URL-shape check, the
non-empty token check and the non-empty model check; all applicable checks
run (no short-circuit) and every violation appends one message. -/
def validateConfig (c : AIConfig) : ValidationResult :=
  let errs :=
    (if urlShaped c.apiUrl then [] else [urlErrorMsg]) ++
      (if c.apiToken = "" then [tokenErrorMsg] else []) ++
        (if c.model = "" then [modelErrorMsg] else [])
  ⟨errs.isEmpty, errs⟩

/-- Modelled from the spec: `validateCustomStyle` field bounds; the numeric
constants live in `types` (not among the reviewed files), values are
representative. -/
def NAME_MAX_LENGTH : Nat := 20

/-- One chat message of the outbound request (role plus content). -/
structure ChatMessage where
  role : String
  content : String
deriving DecidableEq, Repr

/-- The normalized outbound request of section 6: endpoint, model and the
system/user message pair. -/
structure ChatRequest where
  endpoint : String
  model : String
  messages : List ChatMessage
deriving DecidableEq, Repr

/-- The platform character ceiling enforced by `generateReply` (280, also
shown in the selector footer). -/
def CHAR_LIMIT : Nat := 280

/-- Truncate a string to at most `n` characters. -/
def truncateTo (n : Nat) (s : String) : String :=
  if s.length ≤ n then s else ⟨s.data.take n⟩

/-- Modelled from the spec: `lookup(id)` searches presets first, then the
custom collection, first match wins. -/
def lookupStyle (presets : List ReplyStyle) (st : StoreState)
    (styleId : String) : Option ReplyStyle :=
  match presets.find? (fun p => p.id == styleId) with
  | some p => some p
  | none => (st.customStyles.find? (fun s => s.id == styleId)).map toReplyStyle

instance {ε α : Type} [DecidableEq ε] [DecidableEq α] : DecidableEq (Except ε α) :=
  fun a b =>
    match a, b with
    | .error e, .error f =>
      if h : e = f then .isTrue (congrArg Except.error h)
      else .isFalse (fun hc => h (Except.error.inj hc))
    | .error _, .ok _ => .isFalse (fun hc => Except.noConfusion hc)
    | .ok _, .error _ => .isFalse (fun hc => Except.noConfusion hc)
    | .ok x, .ok y =>
      if h : x = y then .isTrue (congrArg Except.ok h)
      else .isFalse (fun hc => h (Except.ok.inj hc))

/-- Outcome of one `generateReply` call: the normalized result, and the
request that was dispatched (`none` when no network call was attempted). -/
structure GenOutcome where
  result : Except AppError String
  request : Option ChatRequest
deriving DecidableEq, Repr

/-- Modelled from the spec: `generateReply(sourceText, styleId)` fails with
`ConfigMissingError` when no config is persisted, fails with a not-found
error when `styleId` does not resolve through the catalog, and otherwise
dispatches one chat request combining the resolved system prompt with the
source text and truncates the provider's text to the 280-character
ceiling.  The provider's reply text is passed in as the response of the
dispatched request. -/
def generateReply (presets : List ReplyStyle) (st : StoreState)
    (sourceText styleId : String) (providerText : String) : GenOutcome :=
  match getAIConfig st with
  | none => ⟨.error .configMissingError, none⟩
  | some cfg =>
    match lookupStyle presets st styleId with
    | none => ⟨.error .notFoundError, none⟩
    | some style =>
      let req : ChatRequest :=
        ⟨cfg.apiUrl, cfg.model,
          [⟨"system", style.systemPrompt⟩, ⟨"user", sourceText⟩]⟩
      ⟨.ok (truncateTo CHAR_LIMIT providerText), some req⟩

/-- Modelled from the spec: `formatForUser` maps each failure cause to a
fixed short user-facing template; no token or stack material is part of any
template. -/
def formatForUser : AppError → String
  | .validationError => "Please correct the highlighted configuration fields"
  | .capacityError => "You have reached the maximum number of custom styles"
  | .notFoundError => "The requested item could not be found"
  | .storageError => "Saving to browser storage failed, please try again"
  | .networkError => "The network request could not be completed"
  | .providerError _ => "The AI provider rejected the request"
  | .configMissingError => "Please save an API configuration first"

/-- The closed set of user-facing message templates. -/
def userMessages : List String :=
  ["Please correct the highlighted configuration fields",
   "You have reached the maximum number of custom styles",
   "The requested item could not be found",
   "Saving to browser storage failed, please try again",
   "The network request could not be completed",
   "The AI provider rejected the request",
   "Please save an API configuration first"]

/-- Outcome of one `testConfig` call: success flag, measured latency and
the normalized error message on failure. -/
structure TestOutcome where
  success : Bool
  latency : Option Nat
  errorMsg : Option String
deriving DecidableEq, Repr

/-- Modelled from the spec: `testConfig` sends a minimal request, measures
round-trip time, treats any non-2xx status as failure with a normalized
message, and never throws past this boundary.  The observed HTTP status and
latency are passed in as the network's answer. -/
def testConfig (cfg : AIConfig) (httpStatus : Nat) (latencyMs : Nat) : TestOutcome :=
  if 200 ≤ httpStatus ∧ httpStatus < 300 then
    ⟨true, some latencyMs, none⟩
  else
    ⟨false, some latencyMs, some (formatForUser (.providerError httpStatus))⟩

/-- `handleProviderChange` from `popup/index.tsx` (lines 54-74): switching
to `custom` clears the URL and keeps the model; switching to a named
provider installs its table URL and its first suggested model (empty when
the suggestion list is empty); the token is carried over in both branches.
The `PROVIDER_URLS` and `MODEL_SUGGESTIONS` tables live in `types` (not
among the reviewed files) and are taken as parameters. -/
def handleProviderChange (provUrls : AIProvider → String)
    (modelSuggestions : AIProvider → List String)
    (formData : AIConfig) (provider : AIProvider) : AIConfig :=
  if provider = .custom then
    { provider := provider
      apiUrl := ""
      apiToken := formData.apiToken
      model := formData.model }
  else
    { provider := provider
      apiUrl := provUrls provider
      apiToken := formData.apiToken
      model := (modelSuggestions provider).headD "" }

/-- The preset-membership test of `StyleSelector.tsx` (line 95):
`REPLY_STYLES.some(preset => preset.id === s.id)`.  The static
`REPLY_STYLES` table lives in `types` and is taken as a parameter. -/
def isPresetId (replyStyles : List ReplyStyle) (s : ReplyStyle) : Bool :=
  replyStyles.any (fun preset => preset.id == s.id)

/-- `presetStyles` of `StyleSelector.tsx` (line 95): the loaded styles
whose id occurs in the static preset table. -/
def presetStylesOf (replyStyles allStyles : List ReplyStyle) : List ReplyStyle :=
  allStyles.filter (fun s => isPresetId replyStyles s)

/-- `customStyles` of `StyleSelector.tsx` (line 96): the loaded styles
whose id does not occur in the static preset table. -/
def customStylesOf (replyStyles allStyles : List ReplyStyle) : List ReplyStyle :=
  allStyles.filter (fun s => !isPresetId replyStyles s)

/-- The dropdown order of `StyleSelector.tsx`: the custom group is rendered
(lines 219-297) before the preset group (lines 352-430). -/
def renderedStyles (replyStyles allStyles : List ReplyStyle) : List ReplyStyle :=
  customStylesOf replyStyles allStyles ++ presetStylesOf replyStyles allStyles

/-- Modelled from the spec: the stored states reachable through the
Persistence Store's mutation surface, starting from the empty store. -/
inductive Reachable (presets : List ReplyStyle) : StoreState → Prop where
  | init : Reachable presets ⟨none, []⟩
  | setConfig {st : StoreState} (cfg : AIConfig) :
      Reachable presets st → Reachable presets (setAIConfig st cfg)
  | clearConfig {st : StoreState} :
      Reachable presets st → Reachable presets (clearAIConfig st)
  | save {st st' : StoreState} {e : CustomReplyStyle} {f : StyleFields} {now : Nat} :
      Reachable presets st →
      saveCustomStyle presets st f now = .ok (st', e) → Reachable presets st'
  | update {st st' : StoreState} {i : String} {f : StyleFields} :
      Reachable presets st →
      updateCustomStyle st i f = .ok st' → Reachable presets st'
  | del {st st' : StoreState} {i : String} :
      Reachable presets st →
      deleteCustomStyle st i = .ok st' → Reachable presets st'

-- Concrete sample data used to exercise the operations.

/-- The built-in humorous preset referenced by the popup's test tab. -/
def humorousPreset : ReplyStyle :=
  ⟨"humorous", "幽默风趣", "😄", "humorous preset", "reply with humor"⟩

/-- A sample stored custom style. -/
def sampleStored : CustomReplyStyle := ⟨"s1", "n", "i", "d", "p", 7⟩

/-- A store holding `MAX_CUSTOM_STYLES` entries. -/
def fullState : StoreState :=
  ⟨none, List.replicate MAX_CUSTOM_STYLES sampleStored⟩

/-- A store holding one custom style and no config. -/
def oneStyleState : StoreState := ⟨none, [sampleStored]⟩

/-- Sample form fields. -/
def sampleFields : StyleFields := ⟨"nn", "ii", "dd", "pp"⟩

/-- A sample saved configuration. -/
def cfgSample : AIConfig :=
  ⟨.siliconflow, "https://api.siliconflow.cn/v1/chat/completions", "tok",
    "Qwen/Qwen2.5-7B-Instruct"⟩

-- Basic lemmas about fresh ids.

theorem length_le_concatAll {s : String} {l : List String} (h : s ∈ l) :
    s.length ≤ (concatAll l).length := by
  induction l with
  | nil => cases h
  | cons a t ih =>
    rcases List.mem_cons.mp h with rfl | hmem
    · simp [concatAll]
    · calc s.length ≤ (concatAll t).length := ih hmem
        _ ≤ (concatAll (a :: t)).length := by simp [concatAll]

theorem freshId_not_mem (l : List String) : freshId l ∉ l := by
  intro h
  have hle := length_le_concatAll h
  have hlen : (freshId l).length = (concatAll l).length + 1 := by
    simp [freshId]
    decide
  omega

theorem urlShaped_empty : urlShaped "" = false := by decide

/-- C1: every config missing `apiUrl`, `apiToken` or `model` is rejected by
`validateConfig` with exactly one error for each missing field (the checks
are not short-circuited, so several missing fields each get their own
error), and the scenario config
`{provider: custom, apiUrl: "", apiToken: "tok", model: "m"}` yields
`valid = false` with the URL-related message among the errors. -/
theorem validateConfig_missing_fields (c : AIConfig)
    (h : c.apiUrl = "" ∨ c.apiToken = "" ∨ c.model = "") :
    (validateConfig c).valid = false ∧
    (c.apiUrl = "" → (validateConfig c).errors.count urlErrorMsg = 1) ∧
    (c.apiToken = "" → (validateConfig c).errors.count tokenErrorMsg = 1) ∧
    (c.model = "" → (validateConfig c).errors.count modelErrorMsg = 1) ∧
    (validateConfig ⟨.custom, "", "tok", "m"⟩).valid = false ∧
    urlErrorMsg ∈ (validateConfig ⟨.custom, "", "tok", "m"⟩).errors := by
  refine ⟨?_, ?_, ?_, ?_, by decide, by decide⟩
  · rcases h with h | h | h
    · have hu : urlShaped c.apiUrl = false := by rw [h]; decide
      simp [validateConfig, hu]
    · simp [validateConfig, h]
    · simp [validateConfig, h]
  · intro h'
    have hu : urlShaped c.apiUrl = false := by rw [h']; decide
    by_cases ht : c.apiToken = "" <;> by_cases hm : c.model = "" <;>
      simp [validateConfig, hu, ht, hm] <;> decide
  · intro h'
    by_cases hu : urlShaped c.apiUrl <;> by_cases hm : c.model = "" <;>
      simp [validateConfig, hu, h', hm] <;> decide
  · intro h'
    by_cases hu : urlShaped c.apiUrl <;> by_cases ht : c.apiToken = "" <;>
      simp [validateConfig, hu, ht, h'] <;> decide

theorem validateConfig_missing_fields_witness :
    ((AIConfig.mk .custom "" "" "").apiUrl = "" ∨
      (AIConfig.mk .custom "" "" "").apiToken = "" ∨
      (AIConfig.mk .custom "" "" "").model = "") ∧
    ((validateConfig (AIConfig.mk .custom "" "" "")).valid = false ∧
      ((AIConfig.mk .custom "" "" "").apiUrl = "" →
        (validateConfig (AIConfig.mk .custom "" "" "")).errors.count urlErrorMsg = 1) ∧
      ((AIConfig.mk .custom "" "" "").apiToken = "" →
        (validateConfig (AIConfig.mk .custom "" "" "")).errors.count tokenErrorMsg = 1) ∧
      ((AIConfig.mk .custom "" "" "").model = "" →
        (validateConfig (AIConfig.mk .custom "" "" "")).errors.count modelErrorMsg = 1) ∧
      (validateConfig ⟨.custom, "", "tok", "m"⟩).valid = false ∧
      urlErrorMsg ∈ (validateConfig ⟨.custom, "", "tok", "m"⟩).errors) :=
  ⟨Or.inl rfl, validateConfig_missing_fields (AIConfig.mk .custom "" "" "") (Or.inl rfl)⟩

/-- C2: saving a custom style into a collection already holding at least
`MAX_CUSTOM_STYLES` entries fails with `CapacityError` and leaves the
stored state exactly as it was. -/
theorem saveCustomStyle_capacity (presets : List ReplyStyle) (st : StoreState)
    (f : StyleFields) (now : Nat)
    (h : MAX_CUSTOM_STYLES ≤ st.customStyles.length) :
    saveCustomStyle presets st f now = .error .capacityError ∧
    saveResultState presets st f now = st := by
  have hsave : saveCustomStyle presets st f now = .error .capacityError := by
    simp [saveCustomStyle, h]
  exact ⟨hsave, by simp [saveResultState, hsave]⟩

theorem saveCustomStyle_capacity_witness :
    MAX_CUSTOM_STYLES ≤ fullState.customStyles.length ∧
    (saveCustomStyle [] fullState sampleFields 0 = .error .capacityError ∧
      saveResultState [] fullState sampleFields 0 = fullState) :=
  ⟨by decide, saveCustomStyle_capacity [] fullState sampleFields 0 (by decide)⟩

/-- C3: `updateCustomStyle` fails with the not-found error exactly when the
id is absent; on success the collection keeps its length and, entry by
entry, the targeted entry keeps its `id` and `createdAt` while every
mutable field takes the value from the supplied record, and every other
entry is untouched. -/
theorem updateCustomStyle_spec (st : StoreState) (i : String) (f : StyleFields) :
    (updateCustomStyle st i f = .error .notFoundError ↔
      ∀ s ∈ st.customStyles, s.id ≠ i) ∧
    (∀ st', updateCustomStyle st i f = .ok st' →
      st'.customStyles.length = st.customStyles.length ∧
      ∀ k (hk : k < st.customStyles.length) (hk' : k < st'.customStyles.length),
        ((st.customStyles.get ⟨k, hk⟩).id = i →
          (st'.customStyles.get ⟨k, hk'⟩).id = (st.customStyles.get ⟨k, hk⟩).id ∧
          (st'.customStyles.get ⟨k, hk'⟩).createdAt
            = (st.customStyles.get ⟨k, hk⟩).createdAt ∧
          (st'.customStyles.get ⟨k, hk'⟩).name = f.name ∧
          (st'.customStyles.get ⟨k, hk'⟩).icon = f.icon ∧
          (st'.customStyles.get ⟨k, hk'⟩).description = f.description ∧
          (st'.customStyles.get ⟨k, hk'⟩).systemPrompt = f.systemPrompt) ∧
        ((st.customStyles.get ⟨k, hk⟩).id ≠ i →
          st'.customStyles.get ⟨k, hk'⟩ = st.customStyles.get ⟨k, hk⟩)) := by
  by_cases hany : st.customStyles.any (fun s => s.id == i)
  · constructor
    · constructor
      · intro herr
        rw [updateCustomStyle, if_pos hany] at herr
        cases herr
      · intro habs
        rcases List.any_eq_true.mp hany with ⟨s, hs, hsid⟩
        exact absurd (beq_iff_eq.mp hsid) (habs s hs)
    · intro st' hok
      rw [updateCustomStyle, if_pos hany] at hok
      have hst' : st'.customStyles =
          st.customStyles.map (fun s => if s.id == i then applyFields f s else s) := by
        cases hok
        rfl
      constructor
      · rw [hst']
        exact List.length_map _ _
      · intro k hk hk'
        have hget : st'.customStyles.get ⟨k, hk'⟩ =
            (fun s => if s.id == i then applyFields f s else s)
              (st.customStyles.get ⟨k, hk⟩) := by
          rw [List.get_eq_getElem, List.get_eq_getElem]
          simp only [hst', List.getElem_map]
        constructor
        · intro hid
          rw [hget]
          simp only [List.get_eq_getElem] at hid
          simp [hid, applyFields]
        · intro hid
          rw [hget]
          simp only [List.get_eq_getElem] at hid
          simp [hid]
  · constructor
    · constructor
      · intro _ s hs hsid
        exact hany (List.any_eq_true.mpr ⟨s, hs, beq_iff_eq.mpr hsid⟩)
      · intro _
        rw [updateCustomStyle, if_neg hany]
    · intro st' hok
      rw [updateCustomStyle, if_neg hany] at hok
      cases hok

theorem updateCustomStyle_spec_witness :
    updateCustomStyle oneStyleState "zz" sampleFields = .error .notFoundError :=
  (updateCustomStyle_spec oneStyleState "zz" sampleFields).1.mpr (by decide)

/-- C4: with no persisted configuration, `generateReply` fails with
`ConfigMissingError` and dispatches no network request, for every source
text and style id. -/
theorem generateReply_no_config (presets : List ReplyStyle) (st : StoreState)
    (sourceText styleId providerText : String) (h : getAIConfig st = none) :
    (generateReply presets st sourceText styleId providerText).result
      = .error .configMissingError ∧
    (generateReply presets st sourceText styleId providerText).request = none := by
  constructor <;> simp [generateReply, h]

theorem generateReply_no_config_witness :
    getAIConfig ⟨none, []⟩ = none ∧
    ((generateReply [humorousPreset] ⟨none, []⟩ "今天天气真好！☀️" "humorous" "x").result
        = .error .configMissingError ∧
      (generateReply [humorousPreset] ⟨none, []⟩ "今天天气真好！☀️" "humorous" "x").request
        = none) :=
  ⟨rfl, generateReply_no_config [humorousPreset] ⟨none, []⟩ "今天天气真好！☀️" "humorous" "x" rfl⟩

theorem truncateTo_length_le (n : Nat) (s : String) : (truncateTo n s).length ≤ n := by
  rw [truncateTo]
  split
  · assumption
  · have hlen : (String.mk (s.data.take n)).length = (s.data.take n).length := rfl
    rw [hlen, List.length_take]
    exact Nat.min_le_left _ _

/-- C5: whenever `generateReply` succeeds, the returned reply text is at
most 280 characters long, whatever text the provider returned. -/
theorem generateReply_length_le (presets : List ReplyStyle) (st : StoreState)
    (sourceText styleId providerText reply : String)
    (h : (generateReply presets st sourceText styleId providerText).result = .ok reply) :
    reply.length ≤ CHAR_LIMIT := by
  unfold generateReply at h
  rcases hcfg : getAIConfig st with _ | cfg
  · rw [hcfg] at h
    cases h
  · rw [hcfg] at h
    rcases hls : lookupStyle presets st styleId with _ | sty
    · rw [hls] at h
      cases h
    · rw [hls] at h
      have hr : reply = truncateTo CHAR_LIMIT providerText :=
        (Except.ok.inj h).symm
      rw [hr]
      exact truncateTo_length_le CHAR_LIMIT providerText

theorem generateReply_length_le_witness :
    (generateReply [humorousPreset] ⟨some cfgSample, []⟩ "今天天气真好！☀️" "humorous"
        "haha").result = .ok "haha" ∧
    ("haha" : String).length ≤ CHAR_LIMIT :=
  ⟨by decide,
    generateReply_length_le [humorousPreset] ⟨some cfgSample, []⟩ "今天天气真好！☀️"
      "humorous" "haha" "haha" (by decide)⟩

theorem toReplyStyle_id (s : CustomReplyStyle) : (toReplyStyle s).id = s.id := rfl

theorem updatedEntry_id (f : StyleFields) (i : String) (s : CustomReplyStyle) :
    (if s.id == i then applyFields f s else s).id = s.id := by
  split <;> rfl

theorem reachable_ids_nodup (presets : List ReplyStyle)
    (hp : (presets.map (fun p => p.id)).Nodup) :
    ∀ st, Reachable presets st →
      (presets.map (fun p => p.id) ++ st.customStyles.map (fun s => s.id)).Nodup := by
  intro st h
  induction h with
  | init => simpa using hp
  | setConfig cfg _ ih => simpa [setAIConfig] using ih
  | clearConfig _ ih => simpa [clearAIConfig] using ih
  | @save st st' e f now _ heq ih =>
    unfold saveCustomStyle at heq
    by_cases hc : st.customStyles.length ≥ MAX_CUSTOM_STYLES
    · rw [if_pos hc] at heq
      cases heq
    · rw [if_neg hc] at heq
      have hcs : st'.customStyles =
          st.customStyles ++
            [mkCustomStyle
              (freshId (presets.map (fun p => p.id) ++
                st.customStyles.map (fun s => s.id))) now f] := by
        cases heq
        rfl
      rw [hcs, List.map_append, ← List.append_assoc]
      rw [List.nodup_append]
      refine ⟨ih, by simp, ?_⟩
      intro a ha hb
      have hae : a = freshId (presets.map (fun p => p.id) ++
          st.customStyles.map (fun s => s.id)) := by
        simpa [mkCustomStyle] using hb
      rw [hae] at ha
      exact freshId_not_mem _ ha
  | @update st st' i f _ heq ih =>
    unfold updateCustomStyle at heq
    by_cases hc : st.customStyles.any (fun s => s.id == i)
    · rw [if_pos hc] at heq
      have hcs : st'.customStyles =
          st.customStyles.map (fun s => if s.id == i then applyFields f s else s) := by
        cases heq
        rfl
      have hids : st'.customStyles.map (fun s => s.id)
          = st.customStyles.map (fun s => s.id) := by
        rw [hcs, List.map_map]
        exact List.map_congr_left (fun s _ => updatedEntry_id f i s)
      rw [hids]
      exact ih
    · rw [if_neg hc] at heq
      cases heq
  | @del st st' i _ heq ih =>
    unfold deleteCustomStyle at heq
    by_cases hc : st.customStyles.any (fun s => s.id == i)
    · rw [if_pos hc] at heq
      have hcs : st'.customStyles = st.customStyles.filter (fun s => s.id != i) := by
        cases heq
        rfl
      have hsub : List.Sublist (st'.customStyles.map (fun s => s.id))
          (st.customStyles.map (fun s => s.id)) := by
        rw [hcs]
        exact (List.filter_sublist _).map _
      exact List.Nodup.sublist (hsub.append_left _) ih
    · rw [if_neg hc] at heq
      cases heq

/-- C6: on every reachable stored state (with the built-in preset ids
pairwise distinct), `getAllStyles` returns a list with pairwise distinct
ids; in particular no stored custom style's id coincides with a preset
id. -/
theorem getAllStyles_nodup_ids (presets : List ReplyStyle) (st : StoreState)
    (hp : (presets.map (fun p => p.id)).Nodup) (hr : Reachable presets st) :
    ((getAllStyles presets st).map (fun s => s.id)).Nodup ∧
    ∀ s ∈ st.customStyles, s.id ∉ presets.map (fun p => p.id) := by
  have hinv := reachable_ids_nodup presets hp st hr
  have hmap : (getAllStyles presets st).map (fun s => s.id)
      = presets.map (fun p => p.id) ++ st.customStyles.map (fun s => s.id) := by
    simp only [getAllStyles, List.map_append, List.map_map]
    rfl
  constructor
  · rw [hmap]
    exact hinv
  · intro s hs hmem
    have hdisj := (List.nodup_append.mp hinv).2.2
    exact hdisj hmem (List.mem_map_of_mem _ hs)

theorem getAllStyles_nodup_ids_witness :
    (([humorousPreset].map (fun p => p.id)).Nodup) ∧
    (((getAllStyles [humorousPreset] (StoreState.mk none [])).map (fun s => s.id)).Nodup ∧
      ∀ s ∈ (StoreState.mk none []).customStyles,
        s.id ∉ [humorousPreset].map (fun p => p.id)) :=
  ⟨by decide,
    getAllStyles_nodup_ids [humorousPreset] (StoreState.mk none []) (by decide)
      Reachable.init⟩

/-- C7: when `saveCustomStyle` succeeds, the stored collection afterwards
is the previous collection (in its order) with the created entity appended,
and the created entity carries exactly the submitted mutable fields, so
`getCustomStyles` contains an entry equal to the input in every field
except the generated `id` and `createdAt`. -/
theorem saveCustomStyle_roundtrip (presets : List ReplyStyle) (st : StoreState)
    (f : StyleFields) (now : Nat) (st' : StoreState) (e : CustomReplyStyle)
    (h : saveCustomStyle presets st f now = .ok (st', e)) :
    getCustomStyles st' = getCustomStyles st ++ [e] ∧
    e ∈ getCustomStyles st' ∧
    e.name = f.name ∧ e.icon = f.icon ∧
    e.description = f.description ∧ e.systemPrompt = f.systemPrompt ∧
    e.createdAt = now := by
  unfold saveCustomStyle at h
  by_cases hc : st.customStyles.length ≥ MAX_CUSTOM_STYLES
  · rw [if_pos hc] at h
    cases h
  · rw [if_neg hc] at h
    injection h with hp
    injection hp with hst he
    subst hst
    subst he
    refine ⟨rfl, by simp [getCustomStyles], rfl, rfl, rfl, rfl, rfl⟩

theorem saveCustomStyle_roundtrip_witness :
    saveCustomStyle [] (StoreState.mk none []) sampleFields 5
        = .ok (StoreState.mk none [mkCustomStyle (freshId []) 5 sampleFields],
            mkCustomStyle (freshId []) 5 sampleFields) ∧
    (getCustomStyles (StoreState.mk none [mkCustomStyle (freshId []) 5 sampleFields])
        = getCustomStyles (StoreState.mk none []) ++ [mkCustomStyle (freshId []) 5 sampleFields] ∧
      mkCustomStyle (freshId []) 5 sampleFields
        ∈ getCustomStyles (StoreState.mk none [mkCustomStyle (freshId []) 5 sampleFields]) ∧
      (mkCustomStyle (freshId []) 5 sampleFields).name = sampleFields.name ∧
      (mkCustomStyle (freshId []) 5 sampleFields).icon = sampleFields.icon ∧
      (mkCustomStyle (freshId []) 5 sampleFields).description = sampleFields.description ∧
      (mkCustomStyle (freshId []) 5 sampleFields).systemPrompt = sampleFields.systemPrompt ∧
      (mkCustomStyle (freshId []) 5 sampleFields).createdAt = 5) :=
  ⟨by decide,
    saveCustomStyle_roundtrip [] (StoreState.mk none []) sampleFields 5
      (StoreState.mk none [mkCustomStyle (freshId []) 5 sampleFields])
      (mkCustomStyle (freshId []) 5 sampleFields) (by decide)⟩

/-- C8: the user-facing message produced on a failing client call is
invariant under the configured API token (two runs differing only in the
secret token produce the same displayed message), and every message the
Error Normalizer can produce belongs to a fixed closed set of templates
that embeds no runtime data. -/
theorem formatForUser_token_noninterference :
    (∀ (cfg : AIConfig) (t t' : String) (httpStatus latencyMs : Nat),
      (testConfig { cfg with apiToken := t } httpStatus latencyMs).errorMsg
        = (testConfig { cfg with apiToken := t' } httpStatus latencyMs).errorMsg ∧
      (testConfig { cfg with apiToken := t } httpStatus latencyMs).success
        = (testConfig { cfg with apiToken := t' } httpStatus latencyMs).success) ∧
    (∀ e : AppError, formatForUser e ∈ userMessages) := by
  constructor
  · intro cfg t t' httpStatus latencyMs
    exact ⟨rfl, rfl⟩
  · intro e
    cases e <;> simp [formatForUser, userMessages]

/-- C9: `handleProviderChange` always carries the token over unchanged and
installs the selected provider; for `custom` it clears the URL and keeps
the current model, for any other provider it installs the provider's table
URL and the first suggested model (empty string when the suggestion list is
empty). -/
theorem handleProviderChange_spec (provUrls : AIProvider → String)
    (modelSuggestions : AIProvider → List String) (formData : AIConfig)
    (provider : AIProvider) :
    (handleProviderChange provUrls modelSuggestions formData provider).apiToken
      = formData.apiToken ∧
    (handleProviderChange provUrls modelSuggestions formData provider).provider
      = provider ∧
    (provider = .custom →
      (handleProviderChange provUrls modelSuggestions formData provider).apiUrl = "" ∧
      (handleProviderChange provUrls modelSuggestions formData provider).model
        = formData.model) ∧
    (provider ≠ .custom →
      (handleProviderChange provUrls modelSuggestions formData provider).apiUrl
        = provUrls provider ∧
      (handleProviderChange provUrls modelSuggestions formData provider).model
        = (modelSuggestions provider).headD "") := by
  by_cases hp : provider = .custom <;> simp [handleProviderChange, hp]

theorem handleProviderChange_spec_witness :
    (handleProviderChange (fun _ => "https://api.deepseek.com")
        (fun _ => ["deepseek-chat"]) cfgSample .deepseek).apiToken
      = cfgSample.apiToken ∧
    (handleProviderChange (fun _ => "https://api.deepseek.com")
        (fun _ => ["deepseek-chat"]) cfgSample .deepseek).provider
      = AIProvider.deepseek ∧
    (AIProvider.deepseek = .custom →
      (handleProviderChange (fun _ => "https://api.deepseek.com")
          (fun _ => ["deepseek-chat"]) cfgSample .deepseek).apiUrl = "" ∧
      (handleProviderChange (fun _ => "https://api.deepseek.com")
          (fun _ => ["deepseek-chat"]) cfgSample .deepseek).model
        = cfgSample.model) ∧
    (AIProvider.deepseek ≠ .custom →
      (handleProviderChange (fun _ => "https://api.deepseek.com")
          (fun _ => ["deepseek-chat"]) cfgSample .deepseek).apiUrl
        = "https://api.deepseek.com" ∧
      (handleProviderChange (fun _ => "https://api.deepseek.com")
          (fun _ => ["deepseek-chat"]) cfgSample .deepseek).model
        = (["deepseek-chat"].headD "")) :=
  handleProviderChange_spec (fun _ => "https://api.deepseek.com")
    (fun _ => ["deepseek-chat"]) cfgSample .deepseek

/-- C10: the `StyleSelector` grouping splits the loaded style list purely
by preset-id membership: the two groups are disjoint, together they are a
permutation of the loaded list (so every entry appears in exactly one
group, with multiplicity preserved), membership in a group is decided
exactly by `isPresetId`, and in the rendered dropdown every custom entry
precedes every preset entry. -/
theorem styleSelector_partition (replyStyles allStyles : List ReplyStyle) :
    (∀ s, s ∈ presetStylesOf replyStyles allStyles →
      s ∉ customStylesOf replyStyles allStyles) ∧
    (presetStylesOf replyStyles allStyles ++ customStylesOf replyStyles allStyles).Perm
      allStyles ∧
    (∀ s, (presetStylesOf replyStyles allStyles).count s
        + (customStylesOf replyStyles allStyles).count s = allStyles.count s) ∧
    (∀ s ∈ allStyles,
      (s ∈ presetStylesOf replyStyles allStyles ↔ isPresetId replyStyles s = true) ∧
      (s ∈ customStylesOf replyStyles allStyles ↔ isPresetId replyStyles s = false)) ∧
    (∀ i j (hi : i < (renderedStyles replyStyles allStyles).length)
        (hj : j < (renderedStyles replyStyles allStyles).length),
      isPresetId replyStyles ((renderedStyles replyStyles allStyles).get ⟨i, hi⟩) = true →
      isPresetId replyStyles ((renderedStyles replyStyles allStyles).get ⟨j, hj⟩) = false →
      j < i) := by
  have hperm : (presetStylesOf replyStyles allStyles ++
      customStylesOf replyStyles allStyles).Perm allStyles :=
    List.filter_append_perm _ allStyles
  refine ⟨?_, hperm, ?_, ?_, ?_⟩
  · intro s hp hc
    have h1 := (List.mem_filter.mp hp).2
    have h2 := (List.mem_filter.mp hc).2
    rw [h1] at h2
    cases h2
  · intro s
    have hcount := hperm.count_eq s
    rw [List.count_append] at hcount
    exact hcount
  · intro s hs
    constructor
    · constructor
      · intro hmem
        exact (List.mem_filter.mp hmem).2
      · intro hpred
        exact List.mem_filter.mpr ⟨hs, hpred⟩
    · constructor
      · intro hmem
        have h2 := (List.mem_filter.mp hmem).2
        simpa using h2
      · intro hpred
        exact List.mem_filter.mpr ⟨hs, by simp [hpred]⟩
  · intro i j hi hj hpi hcj
    have hjlt : j < (customStylesOf replyStyles allStyles).length := by
      by_contra hge
      push_neg at hge
      have hj' : j < (customStylesOf replyStyles allStyles).length +
          (presetStylesOf replyStyles allStyles).length := by
        have := hj
        rw [renderedStyles, List.length_append] at this
        exact this
      have hmem : (renderedStyles replyStyles allStyles).get ⟨j, hj⟩
          ∈ presetStylesOf replyStyles allStyles := by
        rw [List.get_eq_getElem]
        show (customStylesOf replyStyles allStyles ++
          presetStylesOf replyStyles allStyles)[j] ∈ _
        rw [List.getElem_append_right hge]
        exact List.getElem_mem _
      have := (List.mem_filter.mp hmem).2
      rw [hcj] at this
      cases this
    have hige : (customStylesOf replyStyles allStyles).length ≤ i := by
      by_contra hlt
      push_neg at hlt
      have hmem : (renderedStyles replyStyles allStyles).get ⟨i, hi⟩
          ∈ customStylesOf replyStyles allStyles := by
        rw [List.get_eq_getElem]
        show (customStylesOf replyStyles allStyles ++
          presetStylesOf replyStyles allStyles)[i] ∈ _
        rw [List.getElem_append_left hlt]
        exact List.getElem_mem _
      have h2 := (List.mem_filter.mp hmem).2
      rw [hpi] at h2
      cases h2
    exact Nat.lt_of_lt_of_le hjlt hige

theorem styleSelector_partition_witness :
    (∀ s, s ∈ presetStylesOf [humorousPreset] [humorousPreset] →
      s ∉ customStylesOf [humorousPreset] [humorousPreset]) ∧
    (presetStylesOf [humorousPreset] [humorousPreset] ++
      customStylesOf [humorousPreset] [humorousPreset]).Perm [humorousPreset] ∧
    (∀ s, (presetStylesOf [humorousPreset] [humorousPreset]).count s
        + (customStylesOf [humorousPreset] [humorousPreset]).count s
        = ([humorousPreset] : List ReplyStyle).count s) ∧
    (∀ s ∈ ([humorousPreset] : List ReplyStyle),
      (s ∈ presetStylesOf [humorousPreset] [humorousPreset] ↔
        isPresetId [humorousPreset] s = true) ∧
      (s ∈ customStylesOf [humorousPreset] [humorousPreset] ↔
        isPresetId [humorousPreset] s = false)) ∧
    (∀ i j (hi : i < (renderedStyles [humorousPreset] [humorousPreset]).length)
        (hj : j < (renderedStyles [humorousPreset] [humorousPreset]).length),
      isPresetId [humorousPreset]
          ((renderedStyles [humorousPreset] [humorousPreset]).get ⟨i, hi⟩) = true →
      isPresetId [humorousPreset]
          ((renderedStyles [humorousPreset] [humorousPreset]).get ⟨j, hj⟩) = false →
      j < i) :=
  styleSelector_partition [humorousPreset] [humorousPreset]
